import Mathlib

/-
Shallow embedding of the IELTS Speech Generator frontend
(src/frontend/src/App.tsx), a single React component.

The component state (React useState hooks, App.tsx lines 17-28) is modelled
as one record.  Each event handler of the component becomes a Lean function
from the relevant inputs and the outcome of its (single) network call to a
new state paired with the list of observable side effects it performs
(network requests issued, alert dialogs shown, media commands).  JS numbers
that hold media times are modelled as rationals; Math.floor is the real
floor and the JS % operator on non-negative operands is truncated-division
remainder, both exact on the rationals a float denotes.
-/

namespace IELTSApp

/-- One turn of the dialogue (interface DialogueLine, App.tsx lines 5-8). -/
structure DialogueLine where
  speaker : String
  text : String
deriving DecidableEq

/-- Body of a successful /generate-dialogue response
(interface DialogueResponse, App.tsx lines 10-14). -/
structure DialogueResponse where
  examiner_lines : List String
  candidate_lines : List String
  full_dialogue : List DialogueLine
deriving DecidableEq

/-- Observable side effects of the handlers: network requests sent with
axios, alert dialogs, and commands to media elements. -/
inductive Effect where
  | networkCall (endpoint : String)
  | alert (msg : String)
  | playMedia (url : String)
  | mediaSeek (t : ℚ)
  | mediaPlay
  | mediaPause
deriving DecidableEq

/-- The component state: the useState hooks of App, lines 17-28.
currentPlaying is the active line index of the per-line playback
controller (null modelled as none); currentTime and duration belong to
the podcast player. -/
structure AppState where
  topic : String
  difficulty : String
  dialogue : List DialogueLine
  loading : Bool
  currentPlaying : Option Nat
  podcastUrl : String
  podcastLoading : Bool
  isPlaying : Bool
  currentTime : ℚ
  duration : ℚ
deriving DecidableEq

/-- Initial values of the useState hooks (App.tsx lines 17-28). -/
def initialState : AppState :=
  { topic := ""
    difficulty := "intermediate"
    dialogue := []
    loading := false
    currentPlaying := none
    podcastUrl := ""
    podcastLoading := false
    isPlaying := false
    currentTime := 0
    duration := 0 }

/-- Whitespace as the ECMAScript trim operation understands it: the
WhiteSpace and LineTerminator productions (tab, line feed, vertical tab,
form feed, carriage return, space, no-break space, the Unicode space
separators, line and paragraph separators, and the byte-order mark). -/
def jsWhitespace (c : Char) : Bool :=
  let n := c.toNat
  n = 9 || n = 10 || n = 11 || n = 12 || n = 13 || n = 32 || n = 160 ||
  n = 0x1680 || (0x2000 ≤ n && n ≤ 0x200A) || n = 0x2028 || n = 0x2029 ||
  n = 0x202F || n = 0x205F || n = 0x3000 || n = 0xFEFF

/-- JS String.prototype.trim: strip leading and trailing whitespace. -/
def jsTrim (s : String) : String :=
  String.mk (((s.data.dropWhile jsWhitespace).reverse.dropWhile jsWhitespace).reverse)

/-- generateDialogue (App.tsx lines 31-51) run to completion: the blank
check `if (!topic.trim()) { alert; return }` (an empty string is falsy),
then setLoading(true), the POST to /generate-dialogue whose outcome is the
`result` argument, setDialogue on success or alert on error, and
setLoading(false) in the finally block. -/
def generateDialogue (result : Except Unit DialogueResponse) (s : AppState) :
    AppState × List Effect :=
  if jsTrim s.topic = "" then
    (s, [Effect.alert "Lütfen bir konu girin!"])
  else
    match result with
    | Except.ok r =>
        ({ s with dialogue := r.full_dialogue, loading := false },
         [Effect.networkCall "/generate-dialogue"])
    | Except.error _ =>
        ({ s with loading := false },
         [Effect.networkCall "/generate-dialogue",
          Effect.alert "Diyalog oluşturulurken bir hata oluştu!"])

/-- The atomic state mutations of one generateDialogue invocation, split at
its await point so that two overlapping invocations can be interleaved:
issue is the synchronous prefix after the blank check (setLoading(true) and
sending the POST), resolveOk and resolveErr are the continuation that runs
when the response for the corresponding request arrives.  The code applies
the response unconditionally (setDialogue(response.data.full_dialogue),
line 44): no request identifier is checked, so the handler is the same
whatever request the arriving response belongs to. -/
inductive GenEvent where
  | issue
  | resolveOk (r : DialogueResponse)
  | resolveErr
deriving DecidableEq

/-- One interleaving step of the generation request lifecycle. -/
def stepGen (s : AppState) (e : GenEvent) : AppState :=
  match e with
  | GenEvent.issue => { s with loading := true }
  | GenEvent.resolveOk r => { s with dialogue := r.full_dialogue, loading := false }
  | GenEvent.resolveErr => { s with loading := false }

/-- Run a sequence of interleaved generation events. -/
def runGen (s : AppState) (es : List GenEvent) : AppState :=
  List.foldl stepGen s es

/-- generatePodcast (App.tsx lines 73-93) run to completion: rejects locally
when the dialogue is empty, otherwise POSTs to /generate-podcast; on success
sets podcastUrl from the response and alerts, on error alerts; the finally
block clears podcastLoading.  No other state field is touched. -/
def generatePodcast (result : Except Unit String) (s : AppState) :
    AppState × List Effect :=
  if s.dialogue.length = 0 then
    (s, [Effect.alert "Önce bir diyalog oluşturun!"])
  else
    match result with
    | Except.ok path =>
        ({ s with podcastUrl := "http://localhost:8000" ++ path,
                  podcastLoading := false },
         [Effect.networkCall "/generate-podcast",
          Effect.alert "Podcast başarıyla oluşturuldu! 🎧"])
    | Except.error _ =>
        ({ s with podcastLoading := false },
         [Effect.networkCall "/generate-podcast",
          Effect.alert "Podcast oluşturulurken bir hata oluştu!"])

/-- togglePlayPause (App.tsx lines 95-105): returns early when no audio
element is mounted, otherwise pauses or plays the element according to the
current flag and flips isPlaying. -/
def togglePlayPause (audioPresent : Bool) (s : AppState) : AppState × List Effect :=
  if audioPresent then
    ({ s with isPlaying := !s.isPlaying },
     [if s.isPlaying then Effect.mediaPause else Effect.mediaPlay])
  else (s, [])

/-- handleSeek (App.tsx lines 107-114): returns early when no audio element
is mounted, otherwise assigns the parsed slider value to audio.currentTime
and stores the same value with setCurrentTime.  No comparison against 0 or
duration appears in the handler. -/
def handleSeek (audioPresent : Bool) (newTime : ℚ) (s : AppState) :
    AppState × List Effect :=
  if audioPresent then
    ({ s with currentTime := newTime }, [Effect.mediaSeek newTime])
  else (s, [])

/-- The `ended` listener of the podcast audio element (App.tsx line 60). -/
def handleEnded (s : AppState) : AppState := { s with isPlaying := false }

/-- The `timeupdate` listener of the podcast audio element (App.tsx line 58). -/
def updateTime (t : ℚ) (s : AppState) : AppState := { s with currentTime := t }

/-- The `loadedmetadata` listener of the podcast audio element (App.tsx line 59). -/
def updateDuration (d : ℚ) (s : AppState) : AppState := { s with duration := d }

/-- String.prototype.padStart(2, the zero character): prepend zeros until
the length is at least 2. -/
def padStart2 (s : String) : String :=
  String.mk (List.replicate (2 - s.length) '0') ++ s

/-- JS truncation toward zero of a number, as used by the % operator. -/
def jsTrunc (q : ℚ) : ℤ := if 0 ≤ q then ⌊q⌋ else ⌈q⌉

/-- The JS % operator on finite numbers: a - b * trunc(a / b). -/
def jsMod (a b : ℚ) : ℚ := a - b * (jsTrunc (a / b) : ℚ)

/-- formatTime (App.tsx lines 116-120): minutes is Math.floor(time / 60),
seconds is Math.floor(time % 60), rendered as minutes, a colon, and the
seconds zero-padded to two digits. -/
def formatTime (time : ℚ) : String :=
  toString ⌊time / 60⌋ ++ ":" ++ padStart2 (toString ⌊jsMod time 60⌋)

/-- The synchronous prefix of playAudio (App.tsx lines 122-130):
setCurrentPlaying(index) runs immediately, then the POST to /text-to-speech
is sent; everything after the await is in playAudioResolve. -/
def playAudioStart (index : Nat) (s : AppState) : AppState × List Effect :=
  ({ s with currentPlaying := some index },
   [Effect.networkCall "/text-to-speech"])

/-- The continuation of playAudio after its network call (App.tsx lines
133-152).  On a response, `if (response.data.audio_url)` guards audio
creation, so an absent or empty url (both falsy) plays nothing; otherwise
an Audio object with onended and onerror handlers is created and played.
Any exception in the try block (network failure among them) alerts and
clears currentPlaying. -/
def playAudioResolve (synth : Except Unit (Option String)) (s : AppState) :
    AppState × List Effect :=
  match synth with
  | Except.error _ =>
      ({ s with currentPlaying := none },
       [Effect.alert "Ses oluşturulurken hata oluştu. TTS modeli yüklü olduğundan emin olun."])
  | Except.ok audioUrl =>
      match audioUrl with
      | none => (s, [])
      | some url =>
          if url = "" then (s, [])
          else (s, [Effect.playMedia ("http://localhost:8000" ++ url)])

/-- One playAudio invocation run to completion (start, then the
continuation once the synthesis outcome is known), with its effects in
order. -/
def playAudio (index : Nat) (synth : Except Unit (Option String)) (s : AppState) :
    AppState × List Effect :=
  let r1 := playAudioStart index s
  let r2 := playAudioResolve synth r1.1
  (r2.1, r1.2 ++ r2.2)

/-- The onended handler of a per-line Audio object (App.tsx lines 136-138). -/
def lineAudioOnEnded (s : AppState) : AppState := { s with currentPlaying := none }

/-- The onerror handler of a per-line Audio object (App.tsx lines 140-143). -/
def lineAudioOnError (s : AppState) : AppState := { s with currentPlaying := none }

/-- The disabled attribute of a per-line play button
(App.tsx line 225: currentPlaying === index). -/
def playButtonDisabled (currentPlaying : Option Nat) (index : Nat) : Bool :=
  currentPlaying == some index

/-- A user click on the play button of a line: a disabled button fires no
click handler, so playAudio runs only when the button is enabled. -/
def clickPlayLine (index : Nat) (synth : Except Unit (Option String))
    (s : AppState) : AppState × List Effect :=
  if playButtonDisabled s.currentPlaying index then (s, [])
  else playAudio index synth s

/-- Recognizer for network-call effects. -/
def Effect.isNetworkCall : Effect → Bool
  | Effect.networkCall _ => true
  | _ => false

/-- Recognizer for alert effects. -/
def Effect.isAlert : Effect → Bool
  | Effect.alert _ => true
  | _ => false

/-- A reachable state with a bound podcast track mid-playback: a dialogue
was generated, an earlier assembly bound a track, playback is running at
42 seconds of 100, and a new assembly is in flight. -/
def midPlayback : AppState :=
  { topic := "Technology in education"
    difficulty := "intermediate"
    dialogue := [{ speaker := "EXAMINER", text := "Let us begin." }]
    loading := false
    currentPlaying := none
    podcastUrl := "http://localhost:8000/old.wav"
    podcastLoading := true
    isPlaying := true
    currentTime := 42
    duration := 100 }

/-- A state with a generated dialogue and no podcast track bound yet. -/
def emptyTrackState : AppState :=
  { initialState with
      topic := "Travel"
      dialogue := [{ speaker := "EXAMINER", text := "Hello." }] }

/-- Response of an older generation request (topic sent first). -/
def dlgA : DialogueResponse :=
  { examiner_lines := ["Q1"]
    candidate_lines := ["A1"]
    full_dialogue := [{ speaker := "EXAMINER", text := "Q1" },
                      { speaker := "CANDIDATE", text := "A1" }] }

/-- Response of a newer generation request (topic sent second). -/
def dlgB : DialogueResponse :=
  { examiner_lines := ["Q2"]
    candidate_lines := ["A2"]
    full_dialogue := [{ speaker := "EXAMINER", text := "Q2" },
                      { speaker := "CANDIDATE", text := "A2" }] }

/- Helper lemmas -/

/-- A successful assembly, unfolded: fresh URL, busy flag cleared, every
other field untouched. -/
lemma generatePodcast_ok_eq (s : AppState) (p : String) (h : s.dialogue ≠ []) :
    (generatePodcast (Except.ok p) s).1 =
      { s with podcastUrl := "http://localhost:8000" ++ p,
               podcastLoading := false } := by
  unfold generatePodcast
  rw [if_neg (fun hc => h (List.length_eq_zero.mp hc))]

/-- A failing assembly, unfolded: only the busy flag changes. -/
lemma generatePodcast_err_eq (s : AppState) (h : s.dialogue ≠ []) :
    (generatePodcast (Except.error ()) s).1 = { s with podcastLoading := false } := by
  unfold generatePodcast
  rw [if_neg (fun hc => h (List.length_eq_zero.mp hc))]

/-- The Int floor of a non-negative rational divided by 60 is the Nat
floor divided by 60. -/
lemma intFloor_div_sixty (t : ℚ) (ht : 0 ≤ t) :
    ⌊t / 60⌋ = ((⌊t⌋₊ / 60 : ℕ) : ℤ) := by
  have h1 : (0 : ℚ) ≤ t / 60 := by positivity
  have h2 : ⌊t / 60⌋₊ = ⌊t⌋₊ / 60 := by
    rw [show (60 : ℚ) = ((60 : ℕ) : ℚ) by norm_num, Nat.floor_div_nat]
  rw [← Int.natCast_floor_eq_floor h1, h2]

/-- The floored JS remainder of a non-negative rational by 60 is the Nat
floor reduced mod 60. -/
lemma jsMod_sixty_floor (t : ℚ) (ht : 0 ≤ t) :
    ⌊jsMod t 60⌋ = ((⌊t⌋₊ % 60 : ℕ) : ℤ) := by
  have h1 : (0 : ℚ) ≤ t / 60 := by positivity
  have htr : jsTrunc (t / 60) = ⌊t / 60⌋ := by
    unfold jsTrunc
    rw [if_pos h1]
  have key : jsMod t 60 = t - ((60 * ⌊t / 60⌋ : ℤ) : ℚ) := by
    unfold jsMod
    rw [htr]
    push_cast
    ring
  rw [key, Int.floor_sub_int, intFloor_div_sixty t ht, ← Int.natCast_floor_eq_floor ht]
  omega

/-- formatTime of a non-negative time, reduced to a pure computation on
the Nat floor of the time. -/
lemma formatTime_eq (t : ℚ) (ht : 0 ≤ t) :
    formatTime t =
      toString ((⌊t⌋₊ / 60 : ℕ) : ℤ) ++ ":" ++
        padStart2 (toString ((⌊t⌋₊ % 60 : ℕ) : ℤ)) := by
  unfold formatTime
  rw [intFloor_div_sixty t ht, jsMod_sixty_floor t ht]

/-- Zero-padding a number below 60 always yields two characters. -/
lemma padStart2_two_digits (k : ℕ) (hk : k < 60) :
    (padStart2 (toString ((k : ℕ) : ℤ))).length = 2 := by
  have h : ∀ i : Fin 60, (padStart2 (toString ((i.val : ℕ) : ℤ))).length = 2 := by decide
  exact h ⟨k, hk⟩

/- Claim theorems -/

/-- C1: the spec requires a seek value outside the valid range to be
clamped into the range or rejected, so that the stored position is never
out of range.  handleSeek (App.tsx lines 107-114) stores the parsed value
with no range check: with duration 10, a seek to 100 stores
currentPosition 100, strictly above duration. -/
theorem handleSeek_stores_out_of_range :
    ((handleSeek true 100 { initialState with duration := 10 }).1.currentTime = 100) ∧
    ¬ ((handleSeek true 100 { initialState with duration := 10 }).1.currentTime
        ≤ (handleSeek true 100 { initialState with duration := 10 }).1.duration) := by
  constructor
  · rfl
  · show ¬ ((100 : ℚ) ≤ (10 : ℚ))
    norm_num

/-- C2 counterexample: assembling while a previous track is mid-playback
(isPlaying true at 42 of 100 seconds) leaves isPlaying, currentPosition
and duration exactly as they were after the success commits, instead of
paused at position 0 with unknown duration. -/
theorem generatePodcast_success_keeps_playback_state :
    ((generatePodcast (Except.ok "/new.wav") midPlayback).1.isPlaying = true) ∧
    ((generatePodcast (Except.ok "/new.wav") midPlayback).1.currentTime = 42) ∧
    ((generatePodcast (Except.ok "/new.wav") midPlayback).1.duration = 100) :=
  ⟨rfl, rfl, rfl⟩

/-- C2 (amended): a successful assembly binds a fresh TrackRef and clears
the busy flag, and leaves every other field unchanged — currentPosition,
isPlaying and duration included, so they equal 0, false and unknown after
the commit only when they already did before it (as on a first assembly
from the initial state). -/
theorem generatePodcast_success_binds_fresh_track (s : AppState) (p : String)
    (h : s.dialogue ≠ []) :
    (generatePodcast (Except.ok p) s).1 =
      { s with podcastUrl := "http://localhost:8000" ++ p,
               podcastLoading := false } :=
  generatePodcast_ok_eq s p h

/-- Witness for the amended C2 at a concrete state. -/
theorem generatePodcast_success_binds_fresh_track_witness :
    (generatePodcast (Except.ok "/p.wav") midPlayback).1 =
      { midPlayback with podcastUrl := "http://localhost:8000" ++ "/p.wav",
                         podcastLoading := false } :=
  generatePodcast_success_binds_fresh_track midPlayback "/p.wav" (by decide)

/-- C3 counterexample: when an earlier success already bound a track, a
failing assembly keeps that stale URL bound, so the controller is not in
the Empty (no TrackRef) state after the failure. -/
theorem generatePodcast_failure_keeps_stale_track :
    ((generatePodcast (Except.error ()) midPlayback).1.podcastUrl
        = "http://localhost:8000/old.wav") ∧
    "http://localhost:8000/old.wav" ≠ "" :=
  ⟨rfl, by decide⟩

/-- C3 (amended): a failing assembly leaves the state unchanged apart from
clearing the busy flag — in particular a previously bound track is
retained, not cleared to Empty; from the Empty state (no URL bound) a
failure leaves Empty, so the round trip fail-then-succeed started from
Empty binds exactly the successful track. -/
theorem generatePodcast_failure_leaves_state (s : AppState) (h : s.dialogue ≠ []) :
    (generatePodcast (Except.error ()) s).1 = { s with podcastLoading := false } ∧
    (s.podcastUrl = "" → ∀ p : String,
      (generatePodcast (Except.ok p)
          (generatePodcast (Except.error ()) s).1).1.podcastUrl
        = "http://localhost:8000" ++ p) := by
  refine ⟨generatePodcast_err_eq s h, fun _ p => ?_⟩
  rw [generatePodcast_err_eq s h,
    generatePodcast_ok_eq { s with podcastLoading := false } p h]

/-- Witness for the amended C3 at a concrete state. -/
theorem generatePodcast_failure_leaves_state_witness :
    ((generatePodcast (Except.error ()) emptyTrackState).1
        = { emptyTrackState with podcastLoading := false }) ∧
    ((generatePodcast (Except.ok "/p.wav")
          (generatePodcast (Except.error ()) emptyTrackState).1).1.podcastUrl
        = "http://localhost:8000" ++ "/p.wav") := by
  have h := generatePodcast_failure_leaves_state emptyTrackState (by decide)
  exact ⟨h.1, h.2 rfl "/p.wav"⟩

/-- C4: formatTime renders a non-negative time as unbounded minutes, a
colon, and the seconds zero-padded to two digits, with no hour component;
in particular 65 renders as 1:05, 5 as 0:05 and 3661 as 61:01. -/
theorem formatTime_minutes_seconds :
    (∀ t : ℚ, 0 ≤ t →
      formatTime t =
        toString ((⌊t⌋₊ / 60 : ℕ) : ℤ) ++ ":" ++
          padStart2 (toString ((⌊t⌋₊ % 60 : ℕ) : ℤ)) ∧
      (padStart2 (toString ((⌊t⌋₊ % 60 : ℕ) : ℤ))).length = 2) ∧
    formatTime 65 = "1:05" ∧ formatTime 5 = "0:05" ∧ formatTime 3661 = "61:01" := by
  refine ⟨fun t ht =>
    ⟨formatTime_eq t ht, padStart2_two_digits _ (Nat.mod_lt _ (by norm_num))⟩, ?_, ?_, ?_⟩
  · rw [formatTime_eq 65 (by norm_num), Nat.floor_ofNat]
    decide
  · rw [formatTime_eq 5 (by norm_num), Nat.floor_ofNat]
    decide
  · rw [formatTime_eq 3661 (by norm_num), Nat.floor_ofNat]
    decide

/-- Witness for C4 at time 125. -/
theorem formatTime_minutes_seconds_witness :
    formatTime 125 =
      toString ((⌊(125 : ℚ)⌋₊ / 60 : ℕ) : ℤ) ++ ":" ++
        padStart2 (toString ((⌊(125 : ℚ)⌋₊ % 60 : ℕ) : ℤ)) :=
  (formatTime_minutes_seconds.1 125 (by norm_num)).1

/-- C5: the resolution handler of generateDialogue applies whatever
response arrives (App.tsx line 44), with no check that the response
belongs to the newest request; in the interleaving where a second request
is issued before the first resolves and the second resolves first, the
stale first response overwrites the newer dialogue. -/
theorem staleResponse_overwrites_newer :
    ((runGen { initialState with topic := "Travel" }
        [GenEvent.issue, GenEvent.issue,
         GenEvent.resolveOk dlgB, GenEvent.resolveOk dlgA]).dialogue
      = dlgA.full_dialogue) ∧
    dlgA.full_dialogue ≠ dlgB.full_dialogue :=
  ⟨rfl, by decide⟩

/-- C6: for a topic that trims to the empty string, generateDialogue
returns before setLoading and before the POST: the whole state (dialogue
and busy flag included) is unchanged, the only effect is the validation
alert, and no network call is issued. -/
theorem generateDialogue_blank_topic (result : Except Unit DialogueResponse)
    (s : AppState) (h : jsTrim s.topic = "") :
    generateDialogue result s = (s, [Effect.alert "Lütfen bir konu girin!"]) ∧
    ∀ e ∈ (generateDialogue result s).2, e.isNetworkCall = false := by
  have h1 : generateDialogue result s = (s, [Effect.alert "Lütfen bir konu girin!"]) := by
    unfold generateDialogue
    rw [if_pos h]
  refine ⟨h1, ?_⟩
  rw [h1]
  intro e he
  rcases List.mem_singleton.mp he with rfl
  rfl

/-- Witness for C6 at a whitespace-only topic. -/
theorem generateDialogue_blank_topic_witness :
    generateDialogue (Except.error ()) { initialState with topic := "   " }
      = ({ initialState with topic := "   " }, [Effect.alert "Lütfen bir konu girin!"]) :=
  (generateDialogue_blank_topic (Except.error ()) _ (by decide)).1

/-- C7: on a transport failure the dialogue is exactly what it was before
the request, the busy flag ends cleared, and the effects are one network
call followed by one alert — the failure is surfaced exactly once and no
second request (retry) is issued. -/
theorem generateDialogue_transport_failure (s : AppState)
    (h : ¬ jsTrim s.topic = "") :
    (generateDialogue (Except.error ()) s).1 = { s with loading := false } ∧
    (generateDialogue (Except.error ()) s).1.dialogue = s.dialogue ∧
    (generateDialogue (Except.error ()) s).2 =
      [Effect.networkCall "/generate-dialogue",
       Effect.alert "Diyalog oluşturulurken bir hata oluştu!"] ∧
    (generateDialogue (Except.error ()) s).2.countP Effect.isAlert = 1 ∧
    (generateDialogue (Except.error ()) s).2.countP Effect.isNetworkCall = 1 := by
  have h1 : generateDialogue (Except.error ()) s =
      ({ s with loading := false },
       [Effect.networkCall "/generate-dialogue",
        Effect.alert "Diyalog oluşturulurken bir hata oluştu!"]) := by
    unfold generateDialogue
    rw [if_neg h]
  exact ⟨by rw [h1], by rw [h1], by rw [h1], by rw [h1]; rfl, by rw [h1]; rfl⟩

/-- Witness for C7 at a concrete non-blank topic. -/
theorem generateDialogue_transport_failure_witness :
    (generateDialogue (Except.error ()) { initialState with topic := "Travel" }).1
      = { { initialState with topic := "Travel" } with loading := false } :=
  (generateDialogue_transport_failure _ (by decide)).1

/-- C8: playAudio marks the invoked index active in its synchronous
prefix, before the synthesis request resolves; the active index is then
cleared by a synthesis failure (which surfaces exactly one alert and sends
nothing further), by the audio ended handler, and by the audio error
handler — and is not cleared by the success continuation itself. -/
theorem playLine_active_index_lifecycle (index : Nat) (s t : AppState) :
    (playAudioStart index s).1.currentPlaying = some index ∧
    (playAudioResolve (Except.error ()) (playAudioStart index s).1).1.currentPlaying
      = none ∧
    (playAudioResolve (Except.error ()) (playAudioStart index s).1).2 =
      [Effect.alert "Ses oluşturulurken hata oluştu. TTS modeli yüklü olduğundan emin olun."] ∧
    (lineAudioOnEnded t).currentPlaying = none ∧
    (lineAudioOnError t).currentPlaying = none ∧
    ∀ u : Option String,
      (playAudioResolve (Except.ok u) (playAudioStart index s).1).1.currentPlaying
        = some index := by
  refine ⟨rfl, rfl, rfl, rfl, rfl, fun u => ?_⟩
  cases u with
  | none => rfl
  | some url =>
      by_cases hu : url = ""
      · simp [playAudioResolve, playAudioStart, hu]
      · simp [playAudioResolve, playAudioStart, hu]

/-- C9: while index i is the active line its play button is disabled, and
a disabled button fires no click handler: a second trigger on i while i is
active changes nothing and issues no synthesis request. -/
theorem playLine_trigger_idempotent (i : Nat) (synth : Except Unit (Option String))
    (s : AppState) (h : s.currentPlaying = some i) :
    playButtonDisabled s.currentPlaying i = true ∧
    clickPlayLine i synth s = (s, []) ∧
    ∀ e ∈ (clickPlayLine i synth s).2, e.isNetworkCall = false := by
  have hd : playButtonDisabled s.currentPlaying i = true := by
    rw [h]
    exact beq_self_eq_true (some i)
  have hc : clickPlayLine i synth s = (s, []) := by
    unfold clickPlayLine
    rw [hd]
    rfl
  refine ⟨hd, hc, ?_⟩
  rw [hc]
  intro e he
  exact absurd he (List.not_mem_nil e)

/-- Witness for C9 with line 0 active. -/
theorem playLine_trigger_idempotent_witness :
    clickPlayLine 0 (Except.error ()) { initialState with currentPlaying := some 0 }
      = ({ initialState with currentPlaying := some 0 }, []) :=
  (playLine_trigger_idempotent 0 (Except.error ()) _ rfl).2.1

/-- C10: when synthesis succeeds but the response carries no audio url
(absent or the empty string, both falsy in the guard at App.tsx line 133),
the run creates no audio and alerts nothing, and the active index is left
at the invoked index with nothing scheduled to clear it, so that line's
trigger stays disabled. -/
theorem playLine_missing_audio_url (index : Nat) (s : AppState) :
    playAudio index (Except.ok none) s =
      ({ s with currentPlaying := some index },
       [Effect.networkCall "/text-to-speech"]) ∧
    playAudio index (Except.ok (some "")) s =
      ({ s with currentPlaying := some index },
       [Effect.networkCall "/text-to-speech"]) ∧
    playButtonDisabled (some index) index = true :=
  ⟨rfl, rfl, beq_self_eq_true (some index)⟩

end IELTSApp
